import Mathlib

/-!
Shallow embedding of flask_pydantic_spec/utils.py.

Python dicts with string keys are modelled as association lists with
insertion order preserved (inserting an absent key appends at the end,
as CPython dicts do).  Python values that appear in the produced spec
fragments are modelled by the small type PyVal below; schema fragments
whose internal structure never matters to these functions are carried
as opaque tagged values.  Fallible code (KeyError from a registry
lookup, TypeError from issubclass on a non-class) is modelled by
PyResult.
-/

/-- Python values occurring in the spec fragments these functions build:
strings, flat objects with string values (enough for the synthetic
validation-error entry), arrays of strings (from flattening a MultiDict),
and opaque values standing for schema fragments whose shape the code
never inspects. -/
inductive PyVal where
  | vstr (s : String)
  | vobj (fields : List (String × String))
  | varr (xs : List String)
  | vother (tag : String)
deriving DecidableEq, Repr

/-- Result of running a piece of Python code: a value, or a raised
exception carried as its message. -/
inductive PyResult (α : Type) where
  | ok (val : α)
  | exn (msg : String)
deriving DecidableEq, Repr

/-- Lookup in a Python dict modelled as an association list
(first binding wins; keys are unique in dicts produced by the code). -/
def dictGet {β : Type} (k : String) : List (String × β) → Option β
  | [] => none
  | kv :: rest => if kv.1 = k then some kv.2 else dictGet k rest

/-- The value attached to a handler under the attribute name body.
isinstance(x, RequestBase) and issubclass(x, BaseModel) dispatch on
which constructor the value falls under; issubclass raises TypeError
unless its argument is a class, which only the modelClass constructor
represents. -/
inductive PyBody where
  /-- an instance of RequestBase, carrying the result of its generate_spec -/
  | requestBase (spec : List (String × PyVal))
  /-- a class, with its name and whether it is a BaseModel subclass -/
  | modelClass (name : String) (isBaseModel : Bool)
  /-- the value None -/
  | noneVal
  /-- any other non-class object -/
  | nonClass (tag : String)
deriving DecidableEq, Repr

/-- The response container attached under the attribute name resp:
its generate_spec result (a status-code-string keyed map) and the
boolean its own has_model method reports. -/
structure RespContainer where
  spec : List (String × PyVal)
  hasModelFlag : Bool
deriving DecidableEq, Repr

/-- The metadata attributes a handler function may carry.  query,
headers and cookies carry the attached model class, used by the code
only through its registered name, so the name suffices.  The field
json is included because has_model inspects an attribute of that name
via hasattr, although the decoration layer described by the spec only
ever sets body.  doc models the result of inspect.getdoc. -/
structure Handler where
  body : Option PyBody := none
  query : Option String := none
  headers : Option String := none
  cookies : Option String := none
  resp : Option RespContainer := none
  json : Option String := none
  doc : Option String := none
deriving DecidableEq, Repr

/-- doc.split of the separator with maxsplit 1: the text before the
first separator, and the remainder (with later separators intact) when
a separator occurs. -/
def splitFirst (sep : Char) : List Char → List Char × Option (List Char)
  | [] => ([], none)
  | c :: cs =>
    if c = sep then ([], some cs)
    else
      let r := splitFirst sep cs
      (c :: r.1, r.2)

/-- Python str.strip: drop whitespace from both ends. -/
def pyStrip (s : String) : String :=
  ((s.data.dropWhile Char.isWhitespace).reverse.dropWhile Char.isWhitespace).reverse.asString

/-- parse_comments from utils.py: split the handler documentation into
a summary (text before the first line break) and a description (the
rest, stripped). -/
def parse_comments (f : Handler) : Option String × Option String :=
  match f.doc with
  | none => (none, none)
  | some doc =>
    match splitFirst '\n' doc.data with
    | (first, none) => (some first.asString, none)
    | (first, some rest) => (some first.asString, some (pyStrip rest.asString))

/-- Modelled from the spec: the Request adapter from the types module
(not under src).  Section 4.2 says a raw model class is wrapped in a
default request-spec adapter whose schema-generation capability yields
the body-schema fragment for that model; only the fact that it is
produced without error matters to the claims, so the fragment is
carried opaquely, tagged by the model name. -/
def requestAdapterSpec (name : String) : List (String × PyVal) :=
  [("content", PyVal.vother name)]

/-- parse_request from utils.py.  isinstance(request_body, RequestBase)
selects the requestBase branch; otherwise issubclass(request_body,
BaseModel) is evaluated, which raises TypeError when request_body is
not a class (None or any other non-class object). -/
def parse_request (f : Handler) : PyResult (List (String × PyVal)) :=
  match f.body with
  | none => .ok []
  | some request_body =>
    match request_body with
    | PyBody.requestBase spec => .ok spec
    | PyBody.modelClass name isBaseModel =>
      if isBaseModel then .ok (requestAdapterSpec name) else .ok []
    | PyBody.noneVal => .exn "TypeError: issubclass() arg 1 must be a class"
    | PyBody.nonClass _ => .exn "TypeError: issubclass() arg 1 must be a class"

/-- One registry entry: the schema of a model, a properties map and the
required list (the dict get of the key required defaulting to the empty
list is folded into the field default). -/
structure ModelSchema where
  properties : List (String × PyVal)
  required : List String
deriving DecidableEq, Repr

/-- One parameter descriptor as parse_params builds it; location is the
value stored under the dict key in. -/
structure Param where
  name : String
  location : String
  schema : PyVal
  required : Bool
deriving DecidableEq, Repr

/-- The body of one of the three per-location loops of parse_params:
one descriptor per property, required iff the name is in the required
list, in the iteration order of the properties map. -/
def paramsFor (location : String) (ms : ModelSchema) : List Param :=
  ms.properties.map fun p =>
    { name := p.1, location := location, schema := p.2,
      required := ms.required.contains p.1 }

/-- One attribute block of parse_params: skip when the attribute is
absent, otherwise look the model name up in the registry (a missing
key raises KeyError) and append one descriptor per property. -/
def paramStage (attr : Option String) (location : String)
    (models : List (String × ModelSchema)) (params : List Param) :
    PyResult (List Param) :=
  match attr with
  | none => .ok params
  | some model_name =>
    match dictGet model_name models with
    | none => .exn ("KeyError: " ++ model_name)
    | some ms => .ok (params ++ paramsFor location ms)

/-- parse_params from utils.py: process query, then headers, then
cookies, appending to the accumulator; a registry miss propagates. -/
def parse_params (f : Handler) (params : List Param)
    (models : List (String × ModelSchema)) : PyResult (List Param) :=
  match paramStage f.query "query" models params with
  | .exn e => .exn e
  | .ok params1 =>
    match paramStage f.headers "header" models params1 with
    | .exn e => .exn e
    | .ok params2 =>
      match paramStage f.cookies "cookie" models params2 with
      | .exn e => .exn e
      | .ok params3 => .ok params3

/-- The resp attribute present with its has_model method true. -/
def respHasModel (f : Handler) : Bool :=
  match f.resp with
  | some r => r.hasModelFlag
  | none => false

/-- has_model from utils.py: any of the attributes query, json, headers
present, or resp present and itself reporting a model. -/
def has_model (f : Handler) : Bool :=
  if f.query.isSome || f.json.isSome || f.headers.isSome then true
  else if respHasModel f then true
  else false

/-- The synthetic entry parse_resp inserts. -/
def validationErrorEntry : PyVal :=
  PyVal.vobj [("description", "Validation Error")]

/-- parse_resp from utils.py: start from the generate_spec result of
resp (empty when resp is absent); when the string form of the status
code is not already a key and the handler has a model, append the
synthetic validation-error entry under that key. -/
def parse_resp (f : Handler) (code : Nat) : List (String × PyVal) :=
  let responses : List (String × PyVal) :=
    match f.resp with
    | some r => r.spec
    | none => []
  if (dictGet (toString code) responses).isNone && has_model f then
    responses ++ [(toString code, validationErrorEntry)]
  else
    responses

/-- The validation-error value handed to the hooks: the originating
model name (model.__name__) and the structured error list (errors()),
carried abstractly as strings. -/
structure ValidationError where
  modelName : String
  errors : List String
deriving DecidableEq, Repr

/-- One structured log record as the default hooks emit it. -/
structure LogRecord where
  message : String
  spectree_model : String
  spectree_validation : List String
deriving DecidableEq, Repr

/-- default_before_handler from utils.py: when the request validation
error is present, emit one structured log record; otherwise do nothing.
The request and response arguments are threaded through unchanged, and
the list of emitted log records is returned alongside them. -/
def default_before_handler {ρ σ ι : Type} (req : ρ) (resp : σ)
    (req_validation_error : Option ValidationError) (inst : ι) :
    ρ × σ × List LogRecord :=
  match req_validation_error with
  | some e =>
    (req, resp,
      [{ message := "Validation Error", spectree_model := e.modelName,
         spectree_validation := e.errors }])
  | none => (req, resp, [])

/-- default_after_handler from utils.py: same shape as the before hook,
with the distinct message for response validation failures. -/
def default_after_handler {ρ σ ι : Type} (req : ρ) (resp : σ)
    (resp_validation_error : Option ValidationError) (inst : ι) :
    ρ × σ × List LogRecord :=
  match resp_validation_error with
  | some e =>
    (req, resp,
      [{ message := "500 Response Validation Error", spectree_model := e.modelName,
         spectree_validation := e.errors }])
  | none => (req, resp, [])

/-- One binding of the loop of parse_multi_dict from utils.py.  The
input map is the result of MultiDict.to_dict with flat set to False: an
ordered map from each key to its ordered list of values.  A one-element
list collapses to its element; any other list is kept whole. -/
def mdEntry (kv : String × List String) : String × PyVal :=
  match kv.2 with
  | [v] => (kv.1, PyVal.vstr v)
  | vs => (kv.1, PyVal.varr vs)

/-- parse_multi_dict builds its result dict by iterating the input map
once, collapsing each binding with the rule above. -/
def parse_multi_dict (input : List (String × List String)) : List (String × PyVal) :=
  input.map mdEntry

/-- Whether a PyResult is a raised exception. -/
def isExn {α : Type} : PyResult α → Bool
  | .exn _ => true
  | .ok _ => false

/-- Concrete handler for C1: a resp whose generate_spec defines an
entry for 200 only, plus a query model. -/
def c1Resp : RespContainer :=
  { spec := [("200", PyVal.vother "ok_schema")], hasModelFlag := false }

def c1Handler : Handler := { query := some "Query", resp := some c1Resp }

/-- Concrete handler for C2: only the body attribute is attached. -/
def onlyBodyHandler : Handler :=
  { body := some (PyBody.modelClass "PostData" true) }

/-- Concrete handler for C3: body attached and equal to None. -/
def noneBodyHandler : Handler := { body := some PyBody.noneVal }

/-- Concrete handler for C3's amended claim: body is a class that is
not a BaseModel subclass. -/
def plainClassHandler : Handler :=
  { body := some (PyBody.modelClass "Plain" false) }

/-- Concrete registry and handler for C4. -/
def c4QS : ModelSchema :=
  { properties := [("qa", PyVal.vother "s1")], required := ["qa"] }

def c4HS : ModelSchema :=
  { properties := [("ha", PyVal.vother "s2"), ("hb", PyVal.vother "s3")], required := [] }

def c4CS : ModelSchema :=
  { properties := [("ca", PyVal.vother "s4")], required := [] }

def c4Models : List (String × ModelSchema) :=
  [("Q", c4QS), ("H", c4HS), ("C", c4CS)]

def c4Handler : Handler :=
  { query := some "Q", headers := some "H", cookies := some "C" }

/-- Concrete registry and handler for C5: a query model with a required
field a and an optional field b. -/
def c5Schema : ModelSchema :=
  { properties := [("a", PyVal.vother "sa"), ("b", PyVal.vother "sb")], required := ["a"] }

def c5Models : List (String × ModelSchema) := [("Q", c5Schema)]

def c5Handler : Handler := { query := some "Q" }

/-- Concrete handler for C7: a doc string with a line break. -/
def docHandler : Handler := { doc := some "Summary line\n  Detail one" }

/-- Concrete handler for C8: a query model missing from the registry. -/
def missingModelHandler : Handler := { query := some "Missing" }

/-- Concrete handler for C10: only the cookies attribute is attached. -/
def cookiesOnlyHandler : Handler := { cookies := some "CookieModel" }

theorem dictGet_append_self {β : Type} (k : String) (l : List (String × β)) (v : β)
    (h : dictGet k l = none) : dictGet k (l ++ [(k, v)]) = some v := by
  induction l with
  | nil => simp [dictGet]
  | cons kv rest ih =>
    by_cases hk : kv.1 = k
    · simp [dictGet, hk] at h
    · rw [List.cons_append]
      simp only [dictGet, hk, if_false] at h ⊢
      exact ih h

theorem splitFirst_of_not_mem (sep : Char) (l : List Char) (h : sep ∉ l) :
    splitFirst sep l = (l, none) := by
  induction l with
  | nil => rfl
  | cons c cs ih =>
    have hc : ¬ c = sep := fun he => h (he ▸ List.mem_cons_self c cs)
    have hcs : sep ∉ cs := fun hm => h (List.mem_cons_of_mem c hm)
    simp [splitFirst, hc, ih hcs]

theorem splitFirst_append (sep : Char) (pre post : List Char) (h : sep ∉ pre) :
    splitFirst sep (pre ++ sep :: post) = (pre, some post) := by
  induction pre with
  | nil => simp [splitFirst]
  | cons c cs ih =>
    have hc : ¬ c = sep := fun he => h (he ▸ List.mem_cons_self c cs)
    have hcs : sep ∉ cs := fun hm => h (List.mem_cons_of_mem c hm)
    simp [splitFirst, hc, ih hcs]

theorem asString_data (s : String) : s.data.asString = s := rfl

theorem mdEntry_fst (kv : String × List String) : (mdEntry kv).1 = kv.1 := by
  rcases kv with ⟨k, vs⟩
  match vs with
  | [] => rfl
  | [v] => rfl
  | v1 :: v2 :: t => rfl

/-- C1: for a handler carrying a resp whose generate_spec result has no
entry for the string form of the status code, and carrying a query or a
headers attribute, parse_resp contains the synthetic validation-error
entry under that key; and when an explicit entry for that key exists,
parse_resp returns the generate_spec result unchanged, so the explicit
entry is never overwritten. -/
theorem C1_parse_resp_validation_entry (f : Handler) (r : RespContainer) (code : Nat)
    (hr : f.resp = some r) :
    (dictGet (toString code) r.spec = none →
      (f.query.isSome ∨ f.headers.isSome) →
      dictGet (toString code) (parse_resp f code) = some validationErrorEntry) ∧
    (∀ v, dictGet (toString code) r.spec = some v → parse_resp f code = r.spec) := by
  constructor
  · intro hnone hqh
    have hm : has_model f = true := by
      rcases hqh with hq | hh
      · simp [has_model, hq]
      · simp [has_model, hh]
    simp only [parse_resp, hr]
    rw [hnone]
    simp only [Option.isNone_none, hm, Bool.and_self, if_true]
    exact dictGet_append_self _ _ _ hnone
  · intro v hv
    simp only [parse_resp, hr]
    rw [hv]
    simp

/-- C1 witness: concrete handler with a query model and a resp defining
only status 200; parse_resp at 422 gains the synthetic entry, and at
200 the map is returned unchanged. -/
theorem C1_witness :
    dictGet (toString 422) (parse_resp c1Handler 422) = some validationErrorEntry ∧
    parse_resp c1Handler 200 = c1Resp.spec :=
  ⟨(C1_parse_resp_validation_entry c1Handler c1Resp 422 rfl).1 (by decide)
      (Or.inl (by decide)),
    (C1_parse_resp_validation_entry c1Handler c1Resp 200 rfl).2
      (PyVal.vother "ok_schema") (by decide)⟩

/-- C2: evaluating the code at the failing input.  For a handler whose
only attached attribute is body (a BaseModel subclass), has_model is
false, because the code tests the attribute names query, json and
headers and never body, so parse_resp emits no validation-error entry.
The claim (and the docstring of has_model) says the body model should
make has_model true. -/
theorem C2_body_only_handler_eval :
    has_model onlyBodyHandler = false ∧ parse_resp onlyBodyHandler 422 = [] := by
  decide

/-- C3 counterexample: a handler whose body attribute is None makes
parse_request raise TypeError (issubclass demands a class), so it does
not return the empty mapping the claim promises. -/
theorem C3_counterexample_none_body :
    parse_request noneBodyHandler ≠ PyResult.ok [] := by decide

/-- C3 amended: a body that is a class but not a BaseModel subclass
(and not a RequestBase instance) degrades to the empty mapping without
raising; a body that is None, or any non-class object, instead raises
TypeError from the issubclass test. -/
theorem C3_amended_body_degrade (f : Handler) (name tag : String) :
    (f.body = some (PyBody.modelClass name false) → parse_request f = PyResult.ok []) ∧
    (f.body = some PyBody.noneVal →
      parse_request f = PyResult.exn "TypeError: issubclass() arg 1 must be a class") ∧
    (f.body = some (PyBody.nonClass tag) →
      parse_request f = PyResult.exn "TypeError: issubclass() arg 1 must be a class") := by
  refine ⟨?_, ?_, ?_⟩ <;> intro hb <;> simp [parse_request, hb]

/-- C3 witness: the amended claim at concrete handlers. -/
theorem C3_witness :
    parse_request plainClassHandler = PyResult.ok [] ∧
    parse_request noneBodyHandler =
      PyResult.exn "TypeError: issubclass() arg 1 must be a class" :=
  ⟨(C3_amended_body_degrade plainClassHandler "Plain" "x").1 rfl,
    (C3_amended_body_degrade noneBodyHandler "Plain" "x").2.1 rfl⟩

theorem map_location_paramsFor (location : String) (ms : ModelSchema) :
    (paramsFor location ms).map (fun p => p.location) =
      List.replicate ms.properties.length location := by
  unfold paramsFor
  induction ms.properties with
  | nil => rfl
  | cons p rest ih =>
    simp only [List.map_cons, List.length_cons, List.replicate_succ]
    exact congrArg (List.cons location) ih

/-- C4: with query, headers and cookies all attached (the handler
record carries no attachment order, matching the order-independence of
attribute presence), parse_params succeeds with the query block, then
the header block, then the cookie block, so every descriptor located in
query precedes every one located in header, which precedes every one
located in cookie. -/
theorem C4_locations_order (f : Handler) (models : List (String × ModelSchema))
    (qn hn cn : String) (qs hs cs : ModelSchema)
    (hq : f.query = some qn) (hh : f.headers = some hn) (hc : f.cookies = some cn)
    (hmq : dictGet qn models = some qs)
    (hmh : dictGet hn models = some hs)
    (hmc : dictGet cn models = some cs) :
    parse_params f [] models =
      PyResult.ok (paramsFor "query" qs ++ paramsFor "header" hs ++ paramsFor "cookie" cs) ∧
    (paramsFor "query" qs ++ paramsFor "header" hs ++ paramsFor "cookie" cs).map
        (fun p => p.location) =
      List.replicate qs.properties.length "query" ++
      List.replicate hs.properties.length "header" ++
      List.replicate cs.properties.length "cookie" := by
  constructor
  · simp [parse_params, paramStage, hq, hh, hc, hmq, hmh, hmc]
  · simp [List.map_append, map_location_paramsFor]

/-- C4 witness: the order invariant at a concrete handler and registry. -/
theorem C4_witness :
    parse_params c4Handler [] c4Models =
      PyResult.ok
        (paramsFor "query" c4QS ++ paramsFor "header" c4HS ++ paramsFor "cookie" c4CS) ∧
    (paramsFor "query" c4QS ++ paramsFor "header" c4HS ++ paramsFor "cookie" c4CS).map
        (fun p => p.location) =
      List.replicate c4QS.properties.length "query" ++
      List.replicate c4HS.properties.length "header" ++
      List.replicate c4CS.properties.length "cookie" :=
  C4_locations_order c4Handler c4Models "Q" "H" "C" c4QS c4HS c4CS
    rfl rfl rfl (by decide) (by decide) (by decide)

/-- C5: a handler whose query model resolves, in the registry, to the
schema with properties a then b and required exactly a, makes
parse_params append exactly two descriptors, both located in query,
with the required flag true for a and false for b, in the iteration
order of the properties map. -/
theorem C5_query_required_flags (f : Handler) (models : List (String × ModelSchema))
    (qn : String) (sa sb : PyVal) (params : List Param)
    (hq : f.query = some qn) (hh : f.headers = none) (hc : f.cookies = none)
    (hm : dictGet qn models =
      some { properties := [("a", sa), ("b", sb)], required := ["a"] }) :
    parse_params f params models = PyResult.ok (params ++
      [{ name := "a", location := "query", schema := sa, required := true },
       { name := "b", location := "query", schema := sb, required := false }]) := by
  have hpf : paramsFor "query"
      { properties := [("a", sa), ("b", sb)], required := ["a"] } =
      [{ name := "a", location := "query", schema := sa, required := true },
       { name := "b", location := "query", schema := sb, required := false }] := rfl
  simp [parse_params, paramStage, hq, hh, hc, hm, hpf]

/-- C5 witness: the two descriptors at a concrete handler and registry. -/
theorem C5_witness :
    parse_params c5Handler [] c5Models = PyResult.ok
      [{ name := "a", location := "query", schema := PyVal.vother "sa", required := true },
       { name := "b", location := "query", schema := PyVal.vother "sb", required := false }] :=
  C5_query_required_flags c5Handler c5Models "Q" (PyVal.vother "sa") (PyVal.vother "sb")
    [] rfl rfl rfl (by decide)

/-- C6: parse_multi_dict keeps every input key in order, collapses a
one-element value list to its lone element, keeps a list of two or more
values whole, and maps the empty container to the empty mapping; it is
a total function, hence deterministic. -/
theorem C6_multi_dict_flattening (input : List (String × List String)) :
    ((parse_multi_dict input).map Prod.fst = input.map Prod.fst) ∧
    (∀ k v, (k, [v]) ∈ input → (k, PyVal.vstr v) ∈ parse_multi_dict input) ∧
    (∀ k vs, (k, vs) ∈ input → 2 ≤ vs.length →
      (k, PyVal.varr vs) ∈ parse_multi_dict input) ∧
    parse_multi_dict [] = [] := by
  refine ⟨?_, ?_, ?_, rfl⟩
  · simp only [parse_multi_dict, List.map_map]
    exact List.map_congr_left fun kv _ => mdEntry_fst kv
  · intro k v hmem
    have : mdEntry (k, [v]) = (k, PyVal.vstr v) := rfl
    exact this ▸ List.mem_map_of_mem mdEntry hmem
  · intro k vs hmem hlen
    have hvs : mdEntry (k, vs) = (k, PyVal.varr vs) := by
      match vs, hlen with
      | v1 :: v2 :: t, _ => rfl
    exact hvs ▸ List.mem_map_of_mem mdEntry hmem

/-- C6 witness: the flattening at a concrete container. -/
theorem C6_witness :
    ("x", PyVal.vstr "1") ∈ parse_multi_dict [("x", ["1"]), ("y", ["1", "2"])] ∧
    ("y", PyVal.varr ["1", "2"]) ∈ parse_multi_dict [("x", ["1"]), ("y", ["1", "2"])] ∧
    parse_multi_dict [] = [] :=
  ⟨(C6_multi_dict_flattening [("x", ["1"]), ("y", ["1", "2"])]).2.1 "x" "1" (by decide),
    (C6_multi_dict_flattening [("x", ["1"]), ("y", ["1", "2"])]).2.2.1 "y" ["1", "2"]
      (by decide) (by decide),
    (C6_multi_dict_flattening []).2.2.2⟩

/-- C7: parse_comments returns (absent, absent) when the documentation
is absent; the whole text and an absent description when it has no line
break; and otherwise the text before the first break together with the
remainder stripped of leading and trailing whitespace. -/
theorem C7_parse_comments_cases (f : Handler) :
    (f.doc = none → parse_comments f = (none, none)) ∧
    (∀ s : String, f.doc = some s → '\n' ∉ s.data →
      parse_comments f = (some s, none)) ∧
    (∀ s : String, ∀ pre post : List Char, f.doc = some s →
      s.data = pre ++ '\n' :: post → '\n' ∉ pre →
      parse_comments f = (some pre.asString, some (pyStrip post.asString))) := by
  refine ⟨?_, ?_, ?_⟩
  · intro h
    simp [parse_comments, h]
  · intro s hs hnl
    simp [parse_comments, hs, splitFirst_of_not_mem _ _ hnl, asString_data]
  · intro s pre post hs hsplit hnl
    simp [parse_comments, hs, hsplit, splitFirst_append _ _ _ hnl]

/-- C7 witness: the three cases at concrete handlers. -/
theorem C7_witness :
    parse_comments { doc := none } = (none, none) ∧
    parse_comments { doc := some "Solo line" } = (some "Solo line", none) ∧
    parse_comments docHandler = (some "Summary line", some "Detail one") :=
  ⟨(C7_parse_comments_cases { doc := none }).1 rfl,
    (C7_parse_comments_cases { doc := some "Solo line" }).2.1 "Solo line" rfl (by decide),
    (C7_parse_comments_cases docHandler).2.2 "Summary line\n  Detail one"
      "Summary line".data "  Detail one".data rfl (by decide) (by decide)⟩

/-- C8: when any of the query, headers or cookies attributes names a
model absent from the registry, parse_params raises (the KeyError
propagates as an exception result); it never degrades to an ok result,
empty or otherwise. -/
theorem C8_missing_model_raises (f : Handler) (models : List (String × ModelSchema))
    (params : List Param)
    (h : (∃ n, f.query = some n ∧ dictGet n models = none) ∨
         (∃ n, f.headers = some n ∧ dictGet n models = none) ∨
         (∃ n, f.cookies = some n ∧ dictGet n models = none)) :
    isExn (parse_params f params models) = true := by
  rcases h with ⟨n, ha, hm⟩ | ⟨n, ha, hm⟩ | ⟨n, ha, hm⟩
  · simp [parse_params, paramStage, ha, hm, isExn]
  · unfold parse_params
    split
    · simp [isExn]
    · simp [paramStage, ha, hm, isExn]
  · unfold parse_params
    split
    · simp [isExn]
    · split
      · simp [isExn]
      · simp [paramStage, ha, hm, isExn]

/-- C8 witness: a query model missing from an empty registry makes
parse_params raise. -/
theorem C8_witness : isExn (parse_params missingModelHandler [] []) = true :=
  C8_missing_model_raises missingModelHandler [] []
    (Or.inl ⟨"Missing", rfl, rfl⟩)

/-- C9: with an absent validation error both default hooks return
normally, emit no log record, and pass the request and the response
through unchanged, for any request, response and instance inputs. -/
theorem C9_default_handlers_noop {ρ σ ι : Type} (req : ρ) (resp : σ) (inst : ι) :
    default_before_handler req resp none inst = (req, resp, []) ∧
    default_after_handler req resp none inst = (req, resp, []) :=
  ⟨rfl, rfl⟩

/-- C9 witness: the hooks at concrete inputs. -/
theorem C9_witness :
    default_before_handler (0 : Nat) (1 : Nat) none (2 : Nat) =
      ((0 : Nat), (1 : Nat), ([] : List LogRecord)) ∧
    default_after_handler (0 : Nat) (1 : Nat) none (2 : Nat) =
      ((0 : Nat), (1 : Nat), ([] : List LogRecord)) :=
  C9_default_handlers_noop 0 1 2

/-- C10: a handler carrying only a cookies model is not seen by
has_model (which tests query, json, headers and resp but never
cookies), so parse_resp yields the empty map with no synthetic
validation-error entry. -/
theorem C10_cookies_only_no_entry (f : Handler) (code : Nat)
    (hq : f.query = none) (hj : f.json = none) (hh : f.headers = none)
    (hb : f.body = none) (hr : f.resp = none) (hc : f.cookies.isSome) :
    has_model f = false ∧ parse_resp f code = [] := by
  have hm : has_model f = false := by
    simp [has_model, respHasModel, hq, hj, hh, hr]
  exact ⟨hm, by simp [parse_resp, hr, hm, dictGet]⟩

/-- C10 witness: the cookies-only handler at status 422. -/
theorem C10_witness :
    has_model cookiesOnlyHandler = false ∧ parse_resp cookiesOnlyHandler 422 = [] :=
  C10_cookies_only_no_entry cookiesOnlyHandler 422 rfl rfl rfl rfl rfl (by decide)
